import Mathlib

/-!
Verification of `hackrf_read.c` (dmigelarach/exo) against its
natural-language specification.

The program is a small streaming session controller: it opens an output
file, initializes the HackRF subsystem, opens a device, tunes it, starts
asynchronous receive streaming with a callback that appends each buffer
to the file, polls a liveness condition once per second, and tears the
session down.  The development below shallowly embeds the C source:

* `ProcState` models the process-wide globals touched outside the main
  control flow (`do_exit`, `fp`) together with the standard-error stream;
* `rx_callback` and `sigint_callback_handler` are direct translations of
  the C functions of the same names;
* `mainRun` is a translation of `main`, parameterised by an `Env` that
  supplies the return values of every external libhackrf / libc call,
  producing the exit status, the trace of external actions, the
  standard-error messages, and the final resource-ownership state.
-/

namespace HackRF

/-- Value of `HACKRF_SUCCESS` in `hackrf.h`. -/
def HACKRF_SUCCESS : Int := 0

/-- Value of `HACKRF_TRUE` in `hackrf.h`. -/
def HACKRF_TRUE : Int := 1

/-- Value of `EXIT_FAILURE` from `stdlib.h`. -/
def EXIT_FAILURE : Int := 1

/-- Embedding of the fields of `hackrf_transfer` used by `rx_callback`:
the raw byte buffer and the count of valid bytes at its front. -/
structure Transfer where
  buffer : List Nat
  valid_length : Nat
  deriving Repr, DecidableEq

/-- Messages the program writes to the standard-error stream, one
constructor per `fprintf(stderr, ...)` call site in `hackrf_read.c`;
every constructor records the format-string arguments of its call site. -/
inductive StderrMsg where
  | caughtSignal (signum : Int)
  | errorOpeningOutputFile
  | initFailed (err : Int)
  | openFailed (err : Int)
  | setFreqFailed (err : Int)
  | sampleRateSetFailed (err : Int)
  | startRxFailed (err : Int)
  | stopWithCtrlC
  | stopRxFailed (err : Int)
  | closeFailed (err : Int)
  deriving Repr, DecidableEq

/-- Underlying numeric error code carried by a standard-error message, if
the call site prints one (`%d` argument).  The sink-open diagnostic
`"Error opening output file"` prints none. -/
def StderrMsg.errCode : StderrMsg → Option Int
  | .caughtSignal _ => none
  | .errorOpeningOutputFile => none
  | .initFailed e => some e
  | .openFailed e => some e
  | .setFreqFailed e => some e
  | .sampleRateSetFailed e => some e
  | .startRxFailed e => some e
  | .stopWithCtrlC => none
  | .stopRxFailed e => some e
  | .closeFailed e => some e

/-- Process-wide state visible to the signal handler and the receive
callback: the `do_exit` flag, the output file `fp` (`none` models a NULL
`FILE*`, `some bytes` an open sink with the bytes written so far), and
the standard-error stream contents. -/
structure ProcState where
  do_exit : Bool
  fp : Option (List Nat)
  stderr : List StderrMsg
  deriving Repr, DecidableEq

/-- Translation of `sigint_callback_handler`: prints `"Caught signal %d"`
to standard error, then stores `true` into `do_exit`. -/
def sigint_callback_handler (signum : Int) (s : ProcState) : ProcState :=
  { s with
      stderr := s.stderr ++ [StderrMsg.caughtSignal signum]
      do_exit := true }

/-- Bytes that `fwrite(transfer->buffer, transfer->valid_length, 1, fp)`
appends to the sink: the first `valid_length` bytes of the buffer. -/
def writtenBytes (t : Transfer) : List Nat :=
  t.buffer.take t.valid_length

/-- Translation of `rx_callback`: when `do_exit` is set it returns 0 at
once; otherwise, when `fp` is non-NULL, it appends the transfer's valid
bytes to the sink; it returns 0 in every case. -/
def rx_callback (transfer : Transfer) (s : ProcState) : ProcState × Int :=
  if s.do_exit then (s, 0)
  else
    match s.fp with
    | none => (s, 0)
    | some sink => ({ s with fp := some (sink ++ writtenBytes transfer) }, 0)

/-- Concatenation, in invocation order, of the valid bytes of a sequence
of transfers. -/
def writtenAll (ts : List Transfer) : List Nat :=
  (ts.map writtenBytes).flatten

/-- Sequence of receive-callback invocations, one per transfer, in order;
returns the final state and the list of statuses returned. -/
def runCallbacks (ts : List Transfer) (s : ProcState) : ProcState × List Int :=
  match ts with
  | [] => (s, [])
  | t :: rest =>
      let p := rx_callback t s
      let q := runCallbacks rest p.1
      (q.1, p.2 :: q.2)

/-- Repeated signal deliveries: the handler runs once per signal number in
the list, in order. -/
def deliverSignals (sigs : List Int) (s : ProcState) : ProcState :=
  sigs.foldl (fun st n => sigint_callback_handler n st) s

/-- External actions `main` performs, in program order: one constructor
per external call site (file ops, libhackrf calls, handler installation,
the poll and the sleep of the liveness loop). -/
inductive Action where
  | fopenOut
  | initDev
  | openDev
  | setFreq
  | setSampleRate
  | installHandlers
  | startRx
  | pollStreaming
  | sleepSec
  | stopRx
  | closeDev
  | exitSubsystem
  | closeSink
  deriving Repr, DecidableEq

/-- Actions belonging to the teardown sequence: stop receive streaming,
close the device handle, shut down the subsystem, close the output sink. -/
def Action.isTeardown : Action → Bool
  | .stopRx => true
  | .closeDev => true
  | .exitSubsystem => true
  | .closeSink => true
  | _ => false

/-- Environment supplying the result of every external call `main` makes:
whether `fopen` succeeds, the return codes of the libhackrf calls, and
the values observed at the i-th evaluation of the liveness-loop
condition (`hackrf_is_streaming` result and the `do_exit` flag). -/
structure Env where
  fopen_ok : Bool
  init_ret : Int
  open_ret : Int
  set_freq_ret : Int
  set_sample_rate_ret : Int
  start_rx_ret : Int
  stop_rx_ret : Int
  close_ret : Int
  is_streaming : Nat → Int
  do_exit_at : Nat → Bool

/-- Outcome of a run of `main`: exit status, trace of external actions,
standard-error output, whether the `Streaming` state was reached
(`hackrf_start_rx` succeeded), and whether the sink and the device
handle are still open when the process returns. -/
structure MainResult where
  status : Int
  actions : List Action
  stderr : List StderrMsg
  streamingReached : Bool
  finalFpOpen : Bool
  finalDeviceOpen : Bool
  deriving Repr, DecidableEq

/-- Liveness loop of `main`, starting at poll index `i` with `fuel`
remaining condition evaluations: while `hackrf_is_streaming` returns
`HACKRF_TRUE` and `do_exit` is false it sleeps one second and repeats.
Returns the index at which the loop exits together with the actions
performed (a poll per condition evaluation, a sleep per body run). -/
def loopGo (env : Env) : Nat → Nat → Nat × List Action
  | 0, i => (i, [])
  | fuel + 1, i =>
      if env.is_streaming i = HACKRF_TRUE ∧ env.do_exit_at i = false then
        let r := loopGo env fuel (i + 1)
        (r.1, Action.pollStreaming :: Action.sleepSec :: r.2)
      else (i, [Action.pollStreaming])

/-- Translation of `main`, with the `result |=` accumulation of the
source at the `hackrf_start_rx` call site kept verbatim (`Int.lor`).
Each failing startup check returns `EXIT_FAILURE` immediately after its
diagnostic, exactly as the source does; the teardown block runs only
after the loop, under the source's `device != NULL` and `fp != NULL`
guards (both true on that path). -/
def mainRun (env : Env) (fuel : Nat) : MainResult :=
  if env.fopen_ok = false then
    { status := EXIT_FAILURE
      actions := [Action.fopenOut]
      stderr := [StderrMsg.errorOpeningOutputFile]
      streamingReached := false
      finalFpOpen := false
      finalDeviceOpen := false }
  else
    let result := env.init_ret
    if result ≠ HACKRF_SUCCESS then
      { status := EXIT_FAILURE
        actions := [Action.fopenOut, Action.initDev]
        stderr := [StderrMsg.initFailed result]
        streamingReached := false
        finalFpOpen := true
        finalDeviceOpen := false }
    else
      let result := env.open_ret
      if result ≠ HACKRF_SUCCESS then
        { status := EXIT_FAILURE
          actions := [Action.fopenOut, Action.initDev, Action.openDev]
          stderr := [StderrMsg.openFailed result]
          streamingReached := false
          finalFpOpen := true
          finalDeviceOpen := false }
      else
        let result := env.set_freq_ret
        if result ≠ HACKRF_SUCCESS then
          { status := EXIT_FAILURE
            actions := [Action.fopenOut, Action.initDev, Action.openDev,
              Action.setFreq]
            stderr := [StderrMsg.setFreqFailed result]
            streamingReached := false
            finalFpOpen := true
            finalDeviceOpen := true }
        else
          let result := env.set_sample_rate_ret
          if result ≠ HACKRF_SUCCESS then
            { status := EXIT_FAILURE
              actions := [Action.fopenOut, Action.initDev, Action.openDev,
                Action.setFreq, Action.setSampleRate]
              stderr := [StderrMsg.sampleRateSetFailed result]
              streamingReached := false
              finalFpOpen := true
              finalDeviceOpen := true }
          else
            let result := Int.lor result env.start_rx_ret
            if result ≠ HACKRF_SUCCESS then
              { status := EXIT_FAILURE
                actions := [Action.fopenOut, Action.initDev, Action.openDev,
                  Action.setFreq, Action.setSampleRate, Action.installHandlers,
                  Action.startRx]
                stderr := [StderrMsg.startRxFailed result]
                streamingReached := false
                finalFpOpen := true
                finalDeviceOpen := true }
            else
              let lp := loopGo env fuel 0
              { status := 0
                actions := [Action.fopenOut, Action.initDev, Action.openDev,
                  Action.setFreq, Action.setSampleRate, Action.installHandlers,
                  Action.startRx] ++ lp.2 ++
                  [Action.stopRx, Action.closeDev, Action.exitSubsystem,
                    Action.closeSink]
                stderr := [StderrMsg.stopWithCtrlC] ++
                  (if env.stop_rx_ret ≠ HACKRF_SUCCESS then
                    [StderrMsg.stopRxFailed env.stop_rx_ret] else []) ++
                  (if env.close_ret ≠ HACKRF_SUCCESS then
                    [StderrMsg.closeFailed env.close_ret] else [])
                streamingReached := true
                finalFpOpen := false
                finalDeviceOpen := false }

/-- Variant of `mainRun` that replaces the source's accumulation
`result |= hackrf_start_rx(...)` by the plain assignment
`result = hackrf_start_rx(...)`, exactly as the refinement claim words
it; it is identical to `mainRun` in every other respect. -/
def mainRunAssign (env : Env) (fuel : Nat) : MainResult :=
  if env.fopen_ok = false then
    { status := EXIT_FAILURE
      actions := [Action.fopenOut]
      stderr := [StderrMsg.errorOpeningOutputFile]
      streamingReached := false
      finalFpOpen := false
      finalDeviceOpen := false }
  else
    let result := env.init_ret
    if result ≠ HACKRF_SUCCESS then
      { status := EXIT_FAILURE
        actions := [Action.fopenOut, Action.initDev]
        stderr := [StderrMsg.initFailed result]
        streamingReached := false
        finalFpOpen := true
        finalDeviceOpen := false }
    else
      let result := env.open_ret
      if result ≠ HACKRF_SUCCESS then
        { status := EXIT_FAILURE
          actions := [Action.fopenOut, Action.initDev, Action.openDev]
          stderr := [StderrMsg.openFailed result]
          streamingReached := false
          finalFpOpen := true
          finalDeviceOpen := false }
      else
        let result := env.set_freq_ret
        if result ≠ HACKRF_SUCCESS then
          { status := EXIT_FAILURE
            actions := [Action.fopenOut, Action.initDev, Action.openDev,
              Action.setFreq]
            stderr := [StderrMsg.setFreqFailed result]
            streamingReached := false
            finalFpOpen := true
            finalDeviceOpen := true }
        else
          let result := env.set_sample_rate_ret
          if result ≠ HACKRF_SUCCESS then
            { status := EXIT_FAILURE
              actions := [Action.fopenOut, Action.initDev, Action.openDev,
                Action.setFreq, Action.setSampleRate]
              stderr := [StderrMsg.sampleRateSetFailed result]
              streamingReached := false
              finalFpOpen := true
              finalDeviceOpen := true }
          else
            let result := env.start_rx_ret
            if result ≠ HACKRF_SUCCESS then
              { status := EXIT_FAILURE
                actions := [Action.fopenOut, Action.initDev, Action.openDev,
                  Action.setFreq, Action.setSampleRate, Action.installHandlers,
                  Action.startRx]
                stderr := [StderrMsg.startRxFailed result]
                streamingReached := false
                finalFpOpen := true
                finalDeviceOpen := true }
            else
              let lp := loopGo env fuel 0
              { status := 0
                actions := [Action.fopenOut, Action.initDev, Action.openDev,
                  Action.setFreq, Action.setSampleRate, Action.installHandlers,
                  Action.startRx] ++ lp.2 ++
                  [Action.stopRx, Action.closeDev, Action.exitSubsystem,
                    Action.closeSink]
                stderr := [StderrMsg.stopWithCtrlC] ++
                  (if env.stop_rx_ret ≠ HACKRF_SUCCESS then
                    [StderrMsg.stopRxFailed env.stop_rx_ret] else []) ++
                  (if env.close_ret ≠ HACKRF_SUCCESS then
                    [StderrMsg.closeFailed env.close_ret] else [])
                streamingReached := true
                finalFpOpen := false
                finalDeviceOpen := false }

/-- Environment in which every external call succeeds except
`hackrf_stop_rx`, and the exit flag is observed true at the first poll. -/
def envAllOk : Env :=
  { fopen_ok := true
    init_ret := 0
    open_ret := 0
    set_freq_ret := 0
    set_sample_rate_ret := 0
    start_rx_ret := 0
    stop_rx_ret := -5
    close_ret := 0
    is_streaming := fun _ => 1
    do_exit_at := fun _ => true }

/-- Environment in which `fopen` fails and every other call would
succeed. -/
def envSinkFail : Env :=
  { fopen_ok := false
    init_ret := 0
    open_ret := 0
    set_freq_ret := 0
    set_sample_rate_ret := 0
    start_rx_ret := 0
    stop_rx_ret := 0
    close_ret := 0
    is_streaming := fun _ => 1
    do_exit_at := fun _ => false }

/-- Environment in which `hackrf_set_freq` fails (error code -5) after
the sink was opened and the device was opened successfully. -/
def envFreqFail : Env :=
  { fopen_ok := true
    init_ret := 0
    open_ret := 0
    set_freq_ret := -5
    set_sample_rate_ret := 0
    start_rx_ret := 0
    stop_rx_ret := 0
    close_ret := 0
    is_streaming := fun _ => 1
    do_exit_at := fun _ => false }

/-- Environment whose liveness condition fails from poll index 2 on
(device stops streaming there), with all startup calls succeeding. -/
def envStopsAt2 : Env :=
  { fopen_ok := true
    init_ret := 0
    open_ret := 0
    set_freq_ret := 0
    set_sample_rate_ret := 0
    start_rx_ret := 0
    stop_rx_ret := 0
    close_ret := 0
    is_streaming := fun i => if i < 2 then 1 else 0
    do_exit_at := fun _ => false }

/-- Concrete process state with the exit flag clear, an open empty sink
and empty standard-error output. -/
def stOpen : ProcState := { do_exit := false, fp := some [], stderr := [] }

/-- Concrete process state with the exit flag set and an open sink that
already holds two bytes. -/
def stExit : ProcState := { do_exit := true, fp := some [7, 8], stderr := [] }

/-- Concrete two-transfer sequence: three bytes of which two are valid,
then two bytes both valid. -/
def tsDemo : List Transfer :=
  [{ buffer := [1, 2, 3], valid_length := 2 },
   { buffer := [4, 5], valid_length := 2 }]

/-! ### Helper lemmas -/

lemma int_zero_lor (n : Int) : Int.lor 0 n = n := by
  cases n with
  | ofNat m =>
      show Int.lor (Int.ofNat 0) (Int.ofNat m) = Int.ofNat m
      simp [Int.lor]
  | negSucc m =>
      show Int.lor (Int.ofNat 0) (Int.negSucc m) = Int.negSucc m
      simp [Int.lor, Nat.ldiff]

lemma rx_callback_open (t : Transfer) (b : List Nat) (ms : List StderrMsg) :
    rx_callback t ⟨false, some b, ms⟩ =
      (⟨false, some (b ++ writtenBytes t), ms⟩, 0) := rfl

lemma rx_callback_exit (t : Transfer) (s : ProcState) (h : s.do_exit = true) :
    rx_callback t s = (s, 0) := by
  simp [rx_callback, h]

lemma runCallbacks_open (ts : List Transfer) :
    ∀ (b : List Nat) (ms : List StderrMsg),
    runCallbacks ts ⟨false, some b, ms⟩ =
      (⟨false, some (b ++ writtenAll ts), ms⟩, List.replicate ts.length 0) := by
  induction ts with
  | nil =>
      intro b ms
      simp [runCallbacks, writtenAll]
  | cons t rest ih =>
      intro b ms
      simp only [runCallbacks, rx_callback_open, ih, writtenAll, List.map_cons,
        List.flatten_cons, List.length_cons, List.replicate_succ,
        List.append_assoc]

lemma writtenAll_length (ts : List Transfer)
    (h : ∀ t ∈ ts, t.valid_length ≤ t.buffer.length) :
    (writtenAll ts).length = (ts.map Transfer.valid_length).sum := by
  induction ts with
  | nil => simp [writtenAll]
  | cons t rest ih =>
      have ht : t.valid_length ≤ t.buffer.length := h t (by simp)
      have hrest : ∀ u ∈ rest, u.valid_length ≤ u.buffer.length :=
        fun u hu => h u (by simp [hu])
      calc (writtenAll (t :: rest)).length
          = (writtenBytes t).length + (writtenAll rest).length := by
            simp [writtenAll]
        _ = t.valid_length + (rest.map Transfer.valid_length).sum := by
            rw [ih hrest]
            simp [writtenBytes, List.length_take, Nat.min_eq_left ht]
        _ = ((t :: rest).map Transfer.valid_length).sum := by simp

lemma deliverSignals_cons (n : Int) (sigs : List Int) (s : ProcState) :
    deliverSignals (n :: sigs) s =
      deliverSignals sigs (sigint_callback_handler n s) := rfl

lemma deliverSignals_exit_mono (sigs : List Int) :
    ∀ s : ProcState, s.do_exit = true →
      (deliverSignals sigs s).do_exit = true := by
  induction sigs with
  | nil => intro s h; exact h
  | cons n rest ih =>
      intro s h
      rw [deliverSignals_cons]
      exact ih _ rfl

/-! ### Claims about the receive callback and the signal handler -/

/-- C1: for every sequence of receive-callback invocations with the exit
flag false throughout and the output sink open (and initially empty),
the sink ends up holding exactly the concatenation of the transfers'
valid bytes in invocation order, the exit flag and the standard-error
stream are untouched, the total sink length is the sum of the valid
lengths, and every invocation returns the success status 0. -/
theorem c1_rx_sequence_concat (ts : List Transfer) (ms : List StderrMsg)
    (hlen : ∀ t ∈ ts, t.valid_length ≤ t.buffer.length) :
    runCallbacks ts ⟨false, some [], ms⟩ =
      (⟨false, some (writtenAll ts), ms⟩, List.replicate ts.length 0) ∧
    (writtenAll ts).length = (ts.map Transfer.valid_length).sum := by
  constructor
  · have h := runCallbacks_open ts [] ms
    simpa using h
  · exact writtenAll_length ts hlen

/-- Witness for C1 at the concrete two-transfer sequence `tsDemo`. -/
theorem c1_rx_sequence_concat_witness :
    (∀ t ∈ tsDemo, t.valid_length ≤ t.buffer.length) ∧
    runCallbacks tsDemo ⟨false, some [], []⟩ =
      (⟨false, some [1, 2, 4, 5], []⟩, [0, 0]) := by
  refine ⟨by decide, ?_⟩
  rw [(c1_rx_sequence_concat tsDemo [] (by decide)).1]
  decide

/-- C2: every receive-callback invocation made while the exit flag is
true is a no-op returning the success status 0: the whole process state,
in particular the sink contents, is unchanged, for any number of further
invocations. -/
theorem c2_exit_flag_noop (ts : List Transfer) (s : ProcState)
    (h : s.do_exit = true) :
    runCallbacks ts s = (s, List.replicate ts.length 0) := by
  induction ts with
  | nil => simp [runCallbacks]
  | cons t rest ih =>
      simp [runCallbacks, rx_callback_exit t s h, ih, List.replicate_succ]

/-- Witness for C2 at the concrete state `stExit` (flag set, sink holding
two bytes) and the sequence `tsDemo`. -/
theorem c2_exit_flag_noop_witness :
    stExit.do_exit = true ∧
    runCallbacks tsDemo stExit = (stExit, [0, 0]) := by
  refine ⟨rfl, ?_⟩
  rw [c2_exit_flag_noop tsDemo stExit rfl]
  decide

/-- C5: the receive callback never itself terminates streaming: it
returns the success status `HACKRF_SUCCESS` on every invocation, and in
particular it can return a failure status only if the sink has already
been released (vacuously, since it never returns a failure status). -/
theorem c5_callback_always_success (t : Transfer) (s : ProcState) :
    (rx_callback t s).2 = HACKRF_SUCCESS ∧
    ((rx_callback t s).2 ≠ HACKRF_SUCCESS → s.fp = none) := by
  have h : (rx_callback t s).2 = HACKRF_SUCCESS := by
    rcases s with ⟨de, fp, ms⟩
    cases de <;> cases fp <;> simp [rx_callback, HACKRF_SUCCESS]
  exact ⟨h, fun hc => absurd h hc⟩

/-- Witness for C5 at a concrete transfer and the open state `stOpen`. -/
theorem c5_callback_always_success_witness :
    (rx_callback { buffer := [9], valid_length := 1 } stOpen).2 =
      HACKRF_SUCCESS :=
  (c5_callback_always_success { buffer := [9], valid_length := 1 } stOpen).1

/-- C4 counterexample: at the concrete open state `stOpen` and signal
number 2 (SIGINT), the handler is not merely the single assignment
`do_exit := true`: it also appends a `Caught signal` diagnostic to the
standard-error stream, so the handler does perform I/O. -/
theorem c4_counterexample :
    ¬ (sigint_callback_handler 2 stOpen = { stOpen with do_exit := true }) := by
  decide

/-- C4 amended: the exit flag is the only program data the handler
modifies (the sink reference is untouched) and that modification is the
single store of `true`; however, the handler additionally performs one
I/O action, printing a `Caught signal` diagnostic line to the
standard-error stream before setting the flag. -/
theorem c4_handler_flag_and_log (signum : Int) (s : ProcState) :
    sigint_callback_handler signum s =
      { s with
          do_exit := true
          stderr := s.stderr ++ [StderrMsg.caughtSignal signum] } := rfl

/-- C9: delivering one or more terminating signals sets the exit flag to
true; repeated delivery is idempotent (the flag state equals the state
after a single delivery) and the handler never resets the flag to
false. -/
theorem c9_signal_idempotent (sigs : List Int) (n : Int) (s : ProcState)
    (hne : sigs ≠ []) :
    (deliverSignals sigs s).do_exit = true ∧
    (sigint_callback_handler n s).do_exit = true ∧
    (deliverSignals sigs s).do_exit = (sigint_callback_handler n s).do_exit ∧
    (∀ u : ProcState, u.do_exit = true →
      (sigint_callback_handler n u).do_exit = true) := by
  have hone : ∀ (m : Int) (u : ProcState),
      (sigint_callback_handler m u).do_exit = true := fun _ _ => rfl
  have hall : (deliverSignals sigs s).do_exit = true := by
    cases sigs with
    | nil => exact absurd rfl hne
    | cons m rest =>
        rw [deliverSignals_cons]
        exact deliverSignals_exit_mono rest _ (hone m s)
  exact ⟨hall, hone n s, by rw [hall, hone n s], fun u _ => hone n u⟩

/-- Witness for C9 at the concrete delivery sequence `[2, 15, 2]` and
the open state `stOpen`. -/
theorem c9_signal_idempotent_witness :
    ([2, 15, 2] : List Int) ≠ [] ∧
    (deliverSignals [2, 15, 2] stOpen).do_exit = true :=
  ⟨by decide, (c9_signal_idempotent [2, 15, 2] 2 stOpen (by decide)).1⟩

/-! ### Lemmas about the liveness loop -/

lemma success_lor (n : Int) : Int.lor HACKRF_SUCCESS n = n := int_zero_lor n

lemma loopGo_succ (env : Env) (fuel i : Nat) :
    loopGo env (fuel + 1) i =
      if env.is_streaming i = HACKRF_TRUE ∧ env.do_exit_at i = false then
        ((loopGo env fuel (i + 1)).1,
          Action.pollStreaming :: Action.sleepSec :: (loopGo env fuel (i + 1)).2)
      else (i, [Action.pollStreaming]) := rfl

lemma loopGo_fst_zero (env : Env) (i : Nat) : (loopGo env 0 i).1 = i := rfl

lemma loopGo_fst_succ_pos (env : Env) (fuel i : Nat)
    (hc : env.is_streaming i = HACKRF_TRUE ∧ env.do_exit_at i = false) :
    (loopGo env (fuel + 1) i).1 = (loopGo env fuel (i + 1)).1 := by
  rw [loopGo_succ, if_pos hc]

lemma loopGo_fst_succ_neg (env : Env) (fuel i : Nat)
    (hc : ¬ (env.is_streaming i = HACKRF_TRUE ∧ env.do_exit_at i = false)) :
    (loopGo env (fuel + 1) i).1 = i := by
  rw [loopGo_succ, if_neg hc]

lemma loopGo_fst_le (env : Env) :
    ∀ (fuel i k : Nat), i ≤ k →
      ¬ (env.is_streaming k = HACKRF_TRUE ∧ env.do_exit_at k = false) →
      (loopGo env fuel i).1 ≤ k := by
  intro fuel
  induction fuel with
  | zero =>
      intro i k hik _
      rw [loopGo_fst_zero]
      exact hik
  | succ n ih =>
      intro i k hik hk
      by_cases hc : env.is_streaming i = HACKRF_TRUE ∧ env.do_exit_at i = false
      · have hik2 : i + 1 ≤ k := by
          rcases Nat.eq_or_lt_of_le hik with heq | hlt
          · exact absurd (heq ▸ hc) hk
          · omega
        rw [loopGo_fst_succ_pos env n i hc]
        exact ih (i + 1) k hik2 hk
      · rw [loopGo_fst_succ_neg env n i hc]
        exact hik

lemma loopGo_body_cond (env : Env) :
    ∀ (fuel i j : Nat), i ≤ j → j < (loopGo env fuel i).1 →
      env.is_streaming j = HACKRF_TRUE ∧ env.do_exit_at j = false := by
  intro fuel
  induction fuel with
  | zero =>
      intro i j hij hj
      rw [loopGo_fst_zero] at hj
      omega
  | succ n ih =>
      intro i j hij hj
      by_cases hc : env.is_streaming i = HACKRF_TRUE ∧ env.do_exit_at i = false
      · rw [loopGo_fst_succ_pos env n i hc] at hj
        rcases Nat.eq_or_lt_of_le hij with heq | hlt
        · exact heq ▸ hc
        · exact ih (i + 1) j hlt hj
      · rw [loopGo_fst_succ_neg env n i hc] at hj
        omega

lemma loopGo_filter_teardown (env : Env) :
    ∀ (fuel i : Nat),
      (loopGo env fuel i).2.filter Action.isTeardown = [] := by
  intro fuel
  induction fuel with
  | zero => intro i; rfl
  | succ n ih =>
      intro i
      by_cases hc : env.is_streaming i = HACKRF_TRUE ∧ env.do_exit_at i = false
      · rw [loopGo_succ, if_pos hc]
        simp [Action.isTeardown, ih (i + 1)]
      · rw [loopGo_succ, if_neg hc]
        simp [Action.isTeardown]

/-! ### Claims about the main control flow -/

/-- C8: the loop body is entered at poll index `i` only while the device
reports streaming (`HACKRF_TRUE`) and the exit flag is false at `i`; and
as soon as either the flag is observed true or the streaming query stops
reporting `HACKRF_TRUE` at some index `k`, the loop performs no
iteration at or beyond `k`. -/
theorem c8_liveness_loop (env : Env) (fuel k : Nat)
    (hk : env.is_streaming k ≠ HACKRF_TRUE ∨ env.do_exit_at k = true) :
    (loopGo env fuel 0).1 ≤ k ∧
    (∀ i, i < (loopGo env fuel 0).1 →
      env.is_streaming i = HACKRF_TRUE ∧ env.do_exit_at i = false) := by
  have hk2 : ¬ (env.is_streaming k = HACKRF_TRUE ∧ env.do_exit_at k = false) := by
    rcases hk with h | h
    · exact fun hc => h hc.1
    · intro hc
      rw [h] at hc
      exact absurd hc.2 (by decide)
  exact ⟨loopGo_fst_le env fuel 0 k (Nat.zero_le k) hk2,
    fun i hi => loopGo_body_cond env fuel 0 i (Nat.zero_le i) hi⟩

/-- Witness for C8 at the environment `envStopsAt2`, whose device stops
streaming at poll index 2. -/
theorem c8_liveness_loop_witness :
    (envStopsAt2.is_streaming 2 ≠ HACKRF_TRUE ∨
      envStopsAt2.do_exit_at 2 = true) ∧
    (loopGo envStopsAt2 10 0).1 ≤ 2 :=
  ⟨by decide, (c8_liveness_loop envStopsAt2 10 2 (by decide)).1⟩

/-- C7: whenever startup fully succeeds (so the device was opened and
streaming was reached) and the liveness condition eventually fails
within the available fuel, the four teardown steps — stop receive
streaming, close the device, shut down the subsystem, close the sink —
are each attempted exactly once, in that order, for every combination of
stop and close return codes; teardown failures are logged to standard
error but do not prevent the remaining steps. -/
theorem c7_teardown_all_steps (env : Env) (fuel k : Nat)
    (hfo : env.fopen_ok = true)
    (hinit : env.init_ret = HACKRF_SUCCESS)
    (hod : env.open_ret = HACKRF_SUCCESS)
    (hfr : env.set_freq_ret = HACKRF_SUCCESS)
    (hsr : env.set_sample_rate_ret = HACKRF_SUCCESS)
    (hst : env.start_rx_ret = HACKRF_SUCCESS)
    (_hk : ¬ (env.is_streaming k = HACKRF_TRUE ∧ env.do_exit_at k = false))
    (_hfu : k < fuel) :
    (mainRun env fuel).actions.filter Action.isTeardown =
      [Action.stopRx, Action.closeDev, Action.exitSubsystem,
        Action.closeSink] ∧
    (env.stop_rx_ret ≠ HACKRF_SUCCESS →
      StderrMsg.stopRxFailed env.stop_rx_ret ∈ (mainRun env fuel).stderr) ∧
    (env.close_ret ≠ HACKRF_SUCCESS →
      StderrMsg.closeFailed env.close_ret ∈ (mainRun env fuel).stderr) := by
  refine ⟨?_, ?_, ?_⟩
  · simp [mainRun, hfo, hinit, hod, hfr, hsr, hst, success_lor,
      List.filter_append, loopGo_filter_teardown, Action.isTeardown]
  · intro h
    simp [mainRun, hfo, hinit, hod, hfr, hsr, hst, success_lor, h]
  · intro h
    simp [mainRun, hfo, hinit, hod, hfr, hsr, hst, success_lor, h]

/-- Witness for C7 at the environment `envAllOk`, where
`hackrf_stop_rx` fails with code -5. -/
theorem c7_teardown_all_steps_witness :
    (mainRun envAllOk 1).actions.filter Action.isTeardown =
      [Action.stopRx, Action.closeDev, Action.exitSubsystem,
        Action.closeSink] ∧
    StderrMsg.stopRxFailed (-5) ∈ (mainRun envAllOk 1).stderr := by
  have h := c7_teardown_all_steps envAllOk 1 0 (by decide) (by decide)
    (by decide) (by decide) (by decide) (by decide) (by decide) (by decide)
  exact ⟨h.1, h.2.1 (by decide)⟩

/-- C6 counterexample: in the environment where the output sink fails to
open, the program does exit with `EXIT_FAILURE`, but none of the printed
diagnostics carries an underlying error code: the sink-open diagnostic
names the failed step only, refuting the claim that every failing
startup step prints a diagnostic naming both the step and the underlying
error. -/
theorem c6_counterexample :
    (mainRun envSinkFail 1).status = EXIT_FAILURE ∧
    ¬ (∃ m ∈ (mainRun envSinkFail 1).stderr, m.errCode ≠ none) := by
  decide

/-- C6 amended: for every startup step that fails first, the program
exits with `EXIT_FAILURE`, never reaches the streaming state, and prints
exactly one diagnostic naming the failed step; that diagnostic carries
the underlying error code for every step except sink open, whose
diagnostic names the step only; if every step succeeds and the exit flag
is observed within the fuel bound, the program exits with status 0. -/
theorem c6_startup_failure_diagnostics (env : Env) (fuel k : Nat) :
    (env.fopen_ok = false →
      (mainRun env fuel).status = EXIT_FAILURE ∧
      (mainRun env fuel).streamingReached = false ∧
      (mainRun env fuel).stderr = [StderrMsg.errorOpeningOutputFile] ∧
      StderrMsg.errCode StderrMsg.errorOpeningOutputFile = none) ∧
    (env.fopen_ok = true → env.init_ret ≠ HACKRF_SUCCESS →
      (mainRun env fuel).status = EXIT_FAILURE ∧
      (mainRun env fuel).streamingReached = false ∧
      (mainRun env fuel).stderr = [StderrMsg.initFailed env.init_ret] ∧
      (StderrMsg.initFailed env.init_ret).errCode = some env.init_ret) ∧
    (env.fopen_ok = true → env.init_ret = HACKRF_SUCCESS →
      env.open_ret ≠ HACKRF_SUCCESS →
      (mainRun env fuel).status = EXIT_FAILURE ∧
      (mainRun env fuel).streamingReached = false ∧
      (mainRun env fuel).stderr = [StderrMsg.openFailed env.open_ret] ∧
      (StderrMsg.openFailed env.open_ret).errCode = some env.open_ret) ∧
    (env.fopen_ok = true → env.init_ret = HACKRF_SUCCESS →
      env.open_ret = HACKRF_SUCCESS → env.set_freq_ret ≠ HACKRF_SUCCESS →
      (mainRun env fuel).status = EXIT_FAILURE ∧
      (mainRun env fuel).streamingReached = false ∧
      (mainRun env fuel).stderr = [StderrMsg.setFreqFailed env.set_freq_ret] ∧
      (StderrMsg.setFreqFailed env.set_freq_ret).errCode =
        some env.set_freq_ret) ∧
    (env.fopen_ok = true → env.init_ret = HACKRF_SUCCESS →
      env.open_ret = HACKRF_SUCCESS → env.set_freq_ret = HACKRF_SUCCESS →
      env.set_sample_rate_ret ≠ HACKRF_SUCCESS →
      (mainRun env fuel).status = EXIT_FAILURE ∧
      (mainRun env fuel).streamingReached = false ∧
      (mainRun env fuel).stderr =
        [StderrMsg.sampleRateSetFailed env.set_sample_rate_ret] ∧
      (StderrMsg.sampleRateSetFailed env.set_sample_rate_ret).errCode =
        some env.set_sample_rate_ret) ∧
    (env.fopen_ok = true → env.init_ret = HACKRF_SUCCESS →
      env.open_ret = HACKRF_SUCCESS → env.set_freq_ret = HACKRF_SUCCESS →
      env.set_sample_rate_ret = HACKRF_SUCCESS →
      env.start_rx_ret ≠ HACKRF_SUCCESS →
      (mainRun env fuel).status = EXIT_FAILURE ∧
      (mainRun env fuel).streamingReached = false ∧
      (mainRun env fuel).stderr = [StderrMsg.startRxFailed env.start_rx_ret] ∧
      (StderrMsg.startRxFailed env.start_rx_ret).errCode =
        some env.start_rx_ret) ∧
    (env.fopen_ok = true → env.init_ret = HACKRF_SUCCESS →
      env.open_ret = HACKRF_SUCCESS → env.set_freq_ret = HACKRF_SUCCESS →
      env.set_sample_rate_ret = HACKRF_SUCCESS →
      env.start_rx_ret = HACKRF_SUCCESS →
      env.do_exit_at k = true → k < fuel →
      (mainRun env fuel).status = 0) := by
  refine ⟨?_, ?_, ?_, ?_, ?_, ?_, ?_⟩
  · intro h1
    simp [mainRun, h1, StderrMsg.errCode]
  · intro h1 h2
    simp [mainRun, h1, h2, StderrMsg.errCode]
  · intro h1 h2 h3
    simp [mainRun, h1, h2, h3, StderrMsg.errCode]
  · intro h1 h2 h3 h4
    simp [mainRun, h1, h2, h3, h4, StderrMsg.errCode]
  · intro h1 h2 h3 h4 h5
    simp [mainRun, h1, h2, h3, h4, h5, StderrMsg.errCode]
  · intro h1 h2 h3 h4 h5 h6
    simp [mainRun, h1, h2, h3, h4, h5, h6, success_lor, StderrMsg.errCode]
  · intro h1 h2 h3 h4 h5 h6 _ _
    simp [mainRun, h1, h2, h3, h4, h5, h6, success_lor]

/-- Witness for C6 at `envSinkFail` (sink-open failure) and, for the
success conjunct, at `envAllOk`. -/
theorem c6_startup_failure_diagnostics_witness :
    (envSinkFail.fopen_ok = false ∧
      (mainRun envSinkFail 1).status = EXIT_FAILURE ∧
      (mainRun envSinkFail 1).streamingReached = false) ∧
    (envAllOk.do_exit_at 0 = true ∧ (mainRun envAllOk 1).status = 0) := by
  have h1 := (c6_startup_failure_diagnostics envSinkFail 1 0).1 (by decide)
  have h2 := (c6_startup_failure_diagnostics envAllOk 1 0).2.2.2.2.2.2
    (by decide) (by decide) (by decide) (by decide) (by decide) (by decide)
    (by decide) (by decide)
  exact ⟨⟨by decide, h1.1, h1.2.1⟩, ⟨by decide, h2⟩⟩

/-- C3 counterexample: in the environment where `hackrf_set_freq` fails
after the sink and the device were both opened, the program terminates
with `EXIT_FAILURE` while the sink and the device handle are still open
and no teardown action was performed, refuting the claim that they are
released before termination. -/
theorem c3_counterexample :
    (mainRun envFreqFail 1).status = EXIT_FAILURE ∧
    (mainRun envFreqFail 1).finalFpOpen = true ∧
    (mainRun envFreqFail 1).finalDeviceOpen = true ∧
    (mainRun envFreqFail 1).actions.filter Action.isTeardown = [] := by
  decide

/-- C3 amended: an early abort from any startup step before streaming
performs no teardown at all: no stop, close, shutdown or sink-close
action is attempted, the program returns a failure status directly, and
in particular after a frequency-set or sample-rate-set failure the
already-opened output sink and device handle remain open when the
program terminates (they are released only by process exit). -/
theorem c3_early_abort_no_teardown (env : Env) (fuel : Nat) :
    ((mainRun env fuel).streamingReached = false →
      (mainRun env fuel).actions.filter Action.isTeardown = []) ∧
    (env.fopen_ok = true → env.init_ret = HACKRF_SUCCESS →
      env.open_ret = HACKRF_SUCCESS → env.set_freq_ret ≠ HACKRF_SUCCESS →
      (mainRun env fuel).status = EXIT_FAILURE ∧
      (mainRun env fuel).finalFpOpen = true ∧
      (mainRun env fuel).finalDeviceOpen = true) ∧
    (env.fopen_ok = true → env.init_ret = HACKRF_SUCCESS →
      env.open_ret = HACKRF_SUCCESS → env.set_freq_ret = HACKRF_SUCCESS →
      env.set_sample_rate_ret ≠ HACKRF_SUCCESS →
      (mainRun env fuel).status = EXIT_FAILURE ∧
      (mainRun env fuel).finalFpOpen = true ∧
      (mainRun env fuel).finalDeviceOpen = true) := by
  refine ⟨?_, ?_, ?_⟩
  · intro hs
    by_cases h1 : env.fopen_ok = false
    · simp [mainRun, h1, Action.isTeardown]
    · by_cases h2 : env.init_ret ≠ HACKRF_SUCCESS
      · simp [mainRun, h1, h2, Action.isTeardown]
      · by_cases h3 : env.open_ret ≠ HACKRF_SUCCESS
        · simp [mainRun, h1, h2, h3, Action.isTeardown]
        · by_cases h4 : env.set_freq_ret ≠ HACKRF_SUCCESS
          · simp [mainRun, h1, h2, h3, h4, Action.isTeardown]
          · by_cases h5 : env.set_sample_rate_ret ≠ HACKRF_SUCCESS
            · simp [mainRun, h1, h2, h3, h4, h5, Action.isTeardown]
            · have h5e := not_ne_iff.mp h5
              by_cases h6 : env.start_rx_ret ≠ HACKRF_SUCCESS
              · simp [mainRun, h1, h2, h3, h4, h5, h5e, success_lor, h6,
                  Action.isTeardown]
              · have h6e := not_ne_iff.mp h6
                simp [mainRun, h1, h2, h3, h4, h5, h5e, success_lor, h6e]
                  at hs
  · intro h1 h2 h3 h4
    simp [mainRun, h1, h2, h3, h4]
  · intro h1 h2 h3 h4 h5
    simp [mainRun, h1, h2, h3, h4, h5]

/-- Witness for C3 amended at `envFreqFail`. -/
theorem c3_early_abort_no_teardown_witness :
    envFreqFail.set_freq_ret ≠ HACKRF_SUCCESS ∧
    (mainRun envFreqFail 1).status = EXIT_FAILURE ∧
    (mainRun envFreqFail 1).finalFpOpen = true := by
  have h := (c3_early_abort_no_teardown envFreqFail 1).2.1 (by decide)
    (by decide) (by decide) (by decide)
  exact ⟨by decide, h.1, h.2.1⟩

/-- C10: replacing the source's accumulation `result |= hackrf_start_rx`
by the plain assignment `result = hackrf_start_rx` does not change the
behaviour of `main` in any environment: every path reaching that
statement has `result` equal to the success code 0, so the bitwise OR is
the identity there. -/
theorem c10_lor_assign_equiv (env : Env) (fuel : Nat) :
    mainRun env fuel = mainRunAssign env fuel := by
  unfold mainRun mainRunAssign
  by_cases h1 : env.fopen_ok = false
  · simp [h1]
  · by_cases h2 : env.init_ret ≠ HACKRF_SUCCESS
    · simp [h1, h2]
    · by_cases h3 : env.open_ret ≠ HACKRF_SUCCESS
      · simp [h1, h2, h3]
      · by_cases h4 : env.set_freq_ret ≠ HACKRF_SUCCESS
        · simp [h1, h2, h3, h4]
        · by_cases h5 : env.set_sample_rate_ret ≠ HACKRF_SUCCESS
          · simp [h1, h2, h3, h4, h5]
          · have h5e := not_ne_iff.mp h5
            simp [h1, h2, h3, h4, h5, h5e, success_lor]

end HackRF
